import Mathlib

/-!
Verification development for the livecall repository.

The live-call orchestration core (Event Normalizer, Call Lifecycle
Reconciler, Transcript Windower, Assistance Dispatcher, Broadcast Hub) is
specified in spec.md; the repository sources contain the frontend
(TypeScript), the database schema, and design documents.  Frontend
behaviour (SignalWireService.makeCall, useWebSocket reconnection) is
embedded directly from the source files; backend components absent from
the sources are modelled from the spec, and every such definition is
marked `Modelled from the spec:` in its doc comment.
-/

namespace LiveCall

/-- Speaker of a transcript turn, `speaker VARCHAR(50)` in the
`transcriptions` table of database_schema.sql: agent or customer. -/
inductive Speaker where
  | agent
  | customer
deriving DecidableEq, Repr

/-- A transcript turn as stored in the `transcriptions` table of
database_schema.sql (`speaker`, `text`, `confidence`, `sequence_number`)
plus the `is_final` flag of the webhook event structure in
signalwire_integration.md.  Confidence is kept as an integer per-mille
score to stay in exact arithmetic. -/
structure Turn where
  seq : Nat
  speaker : Speaker
  text : String
  confidence : Nat
  isFinal : Bool
deriving DecidableEq, Repr

/-! ## SignalWireService.makeCall (frontend/src/services/signalwire.ts)

The mutable fields of the `SignalWireService` class that `makeCall`
reads or writes: `client`, `currentCall`, `isDialing`, `muted`,
`onHold`.  The nullable `client` and `currentCall` references are
`Option Nat` (a call/client handle is abstracted to a numeric id). -/

/-- Mutable state of the frontend `SignalWireService` class
(signalwire.ts): nullable `client` and `currentCall` references and the
`isDialing` / `muted` / `onHold` flags. -/
structure SWState where
  client : Option Nat
  currentCall : Option Nat
  isDialing : Bool
  muted : Bool
  onHold : Bool
deriving DecidableEq, Repr

/-- `SignalWireService.makeCall` from signalwire.ts.  The two awaited SDK
calls `client.dial(...)` and `call.start()` are passed in as their
outcomes (`dialResult` carries the dialed call id on success).  Returns
the state after the method together with the thrown error or the
returned call id.  Mirrors the source: the three guard throws happen
before any field is mutated; the catch block resets `isDialing` and
`currentCall` before rethrowing. -/
def makeCall (s : SWState) (dialResult : Except String Nat)
    (startResult : Except String Unit) : SWState × Except String Nat :=
  if s.client = none then
    (s, Except.error "SignalWire client not initialized")
  else if s.isDialing then
    (s, Except.error "Call already in progress")
  else if s.currentCall.isSome then
    (s, Except.error "Active call already exists")
  else
    let s1 := { s with isDialing := true, muted := false, onHold := false }
    match dialResult with
    | Except.error e => ({ s1 with isDialing := false, currentCall := none }, Except.error e)
    | Except.ok callId =>
        let s2 := { s1 with currentCall := some callId }
        match startResult with
        | Except.error e =>
            ({ s2 with isDialing := false, currentCall := none }, Except.error e)
        | Except.ok _ => ({ s2 with isDialing := false }, Except.ok callId)

/-! ## useWebSocket reconnection (frontend/src/hooks/useWebSocket.ts) -/

/-- `maxReconnectAttempts` constant of useWebSocket.ts. -/
def maxReconnectAttempts : Nat := 10

/-- The `onclose` handler of useWebSocket.ts: given the hook's
`autoReconnect` option, the current `callId` argument and the
`reconnectAttemptsRef` counter, returns the new counter value and
whether a reconnect was scheduled (`setTimeout(connect, ...)`).  A
reconnect is scheduled only when `autoReconnect && callId &&
reconnectAttemptsRef.current < maxReconnectAttempts`, and then the
counter is incremented. -/
def onCloseReconnect (autoReconnect : Bool) (callId : Option String)
    (attempts : Nat) : Nat × Bool :=
  if autoReconnect && callId.isSome && decide (attempts < maxReconnectAttempts) then
    (attempts + 1, true)
  else
    (attempts, false)

/-- The `onopen` handler of useWebSocket.ts resets
`reconnectAttemptsRef.current` to 0. -/
def onOpenReset (_attempts : Nat) : Nat := 0

/-- Lifecycle events of one WebSocket channel connection as seen by the
useWebSocket.ts handlers: the socket opened, or the socket closed. -/
inductive WSEvent where
  | opened
  | closed
deriving DecidableEq, Repr

/-- Runs the useWebSocket.ts open/close handlers over a sequence of
socket lifecycle events; returns the final attempt counter and the
total number of reconnects scheduled along the way. -/
def wsRun (autoReconnect : Bool) (callId : Option String) :
    Nat → List WSEvent → Nat × Nat
  | a, [] => (a, 0)
  | a, WSEvent.opened :: es => wsRun autoReconnect callId (onOpenReset a) es
  | a, WSEvent.closed :: es =>
      let r := onCloseReconnect autoReconnect callId a
      let rest := wsRun autoReconnect callId r.1 es
      (rest.1, (if r.2 then 1 else 0) + rest.2)

/-- Helper for C10: over a run of close events only (no successful open
in between), the number of reconnects scheduled is bounded by what is
left of the attempt budget. -/
theorem wsRun_closed_only_sched_le (ar : Bool) (cid : Option String) :
    ∀ (es : List WSEvent) (a : Nat), (∀ e ∈ es, e = WSEvent.closed) →
      (wsRun ar cid a es).2 ≤ maxReconnectAttempts - a := by
  intro es
  induction es with
  | nil => intro a _; simp [wsRun]
  | cons e es ih =>
      intro a h
      have he : e = WSEvent.closed := h e (List.mem_cons_self e es)
      subst he
      have hes : ∀ e ∈ es, e = WSEvent.closed := fun e hm => h e (List.mem_cons_of_mem _ hm)
      by_cases hc : (ar && cid.isSome && decide (a < maxReconnectAttempts)) = true
      · have ha : a < maxReconnectAttempts := by
          have := (Bool.and_eq_true _ _).mp hc
          exact of_decide_eq_true this.2
        have hrec := ih (a + 1) hes
        simp only [wsRun, onCloseReconnect, hc, if_true]
        omega
      · have hrec := ih a hes
        simp only [wsRun, onCloseReconnect, hc, if_false]
        simpa using hrec

/-- Claim C9: SignalWireService.makeCall never leaves the service in a
stuck dialing state.  The three guard cases (uninitialized client, dial
already in progress, existing current call) throw without modifying the
state; once the guards pass, any failure of the dial or of call.start
resets isDialing to false and currentCall to null before rethrowing, so
after a failed makeCall the service holds no active call. -/
theorem makeCall_no_stuck_dialing (s : SWState) (dialResult : Except String Nat)
    (startResult : Except String Unit) :
    (s.client = none →
      makeCall s dialResult startResult = (s, Except.error "SignalWire client not initialized")) ∧
    (s.client ≠ none → s.isDialing = true →
      makeCall s dialResult startResult = (s, Except.error "Call already in progress")) ∧
    (s.client ≠ none → s.isDialing = false → s.currentCall.isSome →
      makeCall s dialResult startResult = (s, Except.error "Active call already exists")) ∧
    (∀ e : String, s.client ≠ none → s.isDialing = false → s.currentCall = none →
      (makeCall s dialResult startResult).2 = Except.error e →
      (makeCall s dialResult startResult).1.isDialing = false ∧
      (makeCall s dialResult startResult).1.currentCall = none) := by
  refine ⟨?_, ?_, ?_, ?_⟩
  · intro h; simp [makeCall, h]
  · intro h1 h2; simp [makeCall, h1, h2]
  · intro h1 h2 h3; simp [makeCall, h1, h2, h3]
  · intro e h1 h2 h3 herr
    cases dialResult with
    | error d => simp [makeCall, h1, h2, h3]
    | ok callId =>
        cases startResult with
        | error d => simp [makeCall, h1, h2, h3]
        | ok u =>
            exfalso
            simp [makeCall, h1, h2, h3] at herr

/-- Witness for C9 at concrete states: an uninitialized client throws
with the state unmodified; a dial-in-progress state throws unmodified; a
state with a current call throws unmodified; and a failed dial from a
clean state leaves isDialing false and currentCall null. -/
theorem makeCall_no_stuck_dialing_witness :
    (makeCall ⟨none, none, false, false, false⟩ (Except.ok 7) (Except.ok ()) =
      (⟨none, none, false, false, false⟩, Except.error "SignalWire client not initialized")) ∧
    (makeCall ⟨some 1, none, true, false, false⟩ (Except.ok 7) (Except.ok ()) =
      (⟨some 1, none, true, false, false⟩, Except.error "Call already in progress")) ∧
    (makeCall ⟨some 1, some 2, false, false, false⟩ (Except.ok 7) (Except.ok ()) =
      (⟨some 1, some 2, false, false, false⟩, Except.error "Active call already exists")) ∧
    ((makeCall ⟨some 1, none, false, true, true⟩ (Except.error "dial failed") (Except.ok ())).1.isDialing = false ∧
      (makeCall ⟨some 1, none, false, true, true⟩ (Except.error "dial failed") (Except.ok ())).1.currentCall = none) :=
  ⟨(makeCall_no_stuck_dialing ⟨none, none, false, false, false⟩ (Except.ok 7) (Except.ok ())).1 rfl,
   (makeCall_no_stuck_dialing ⟨some 1, none, true, false, false⟩ (Except.ok 7) (Except.ok ())).2.1
      (by decide) rfl,
   (makeCall_no_stuck_dialing ⟨some 1, some 2, false, false, false⟩ (Except.ok 7) (Except.ok ())).2.2.1
      (by decide) rfl (by decide),
   (makeCall_no_stuck_dialing ⟨some 1, none, false, true, true⟩ (Except.error "dial failed") (Except.ok ())).2.2.2
      "dial failed" (by decide) rfl rfl rfl⟩

/-- Claim C10: useWebSocket reconnection is bounded.  A reconnect is
scheduled by the onclose handler only while a callId is present; a
successful open resets the attempt counter to 0; once the counter
reaches maxReconnectAttempts (10) no further reconnect is scheduled;
and any run of consecutive closes starting from a fresh counter
schedules at most maxReconnectAttempts reconnects. -/
theorem useWebSocket_reconnect_bounded (ar : Bool) (cid : Option String)
    (a : Nat) (es : List WSEvent) :
    (onOpenReset a = 0) ∧
    (onCloseReconnect ar none a = (a, false)) ∧
    (maxReconnectAttempts ≤ a → onCloseReconnect ar cid a = (a, false)) ∧
    ((∀ e ∈ es, e = WSEvent.closed) →
      (wsRun ar cid 0 es).2 ≤ maxReconnectAttempts) := by
  refine ⟨rfl, ?_, ?_, ?_⟩
  · simp [onCloseReconnect]
  · intro h
    have : ¬ a < maxReconnectAttempts := by omega
    simp [onCloseReconnect, this]
  · intro h
    simpa using wsRun_closed_only_sched_le ar cid es 0 h

/-- Witness for C10 at concrete inputs: with the counter at the limit a
close schedules nothing, and twelve consecutive closes schedule at most
ten reconnects. -/
theorem useWebSocket_reconnect_bounded_witness :
    (onCloseReconnect true none 3 = (3, false)) ∧
    (onCloseReconnect true (some "general") 10 = (10, false)) ∧
    ((wsRun true (some "general") 0 (List.replicate 12 WSEvent.closed)).2 ≤ maxReconnectAttempts) :=
  ⟨(useWebSocket_reconnect_bounded true none 3 []).2.1,
   (useWebSocket_reconnect_bounded true (some "general") 10 []).2.2.1 (by decide),
   (useWebSocket_reconnect_bounded true (some "general") 0
      (List.replicate 12 WSEvent.closed)).2.2.2 (by decide)⟩

/-! ## Event Normalizer (spec §4.1, §6)

The backend webhook handlers are not among the repository sources; the
Normalizer is modelled from spec.md. -/

/-- Raw payload of `POST /webhooks/transcribe` (spec §6):
`{utterance:{role, content, confidence, timestamp}, call_info:{call_id}}`.
Confidence as integer per-mille, timestamp in milliseconds. -/
structure TranscribePayload where
  role : String
  content : String
  confidence : Nat
  timestampMs : Nat
  callId : String
deriving DecidableEq, Repr

/-- Modelled from the spec: the Event Normalizer's utterance-role
mapping for `POST /webhooks/transcribe` (spec §6): role
`remote-caller` maps to speaker customer, `local-caller` to speaker
agent; any other role is not a known variant. -/
def mapUtteranceRole (role : String) : Option Speaker :=
  if role = "remote-caller" then some Speaker.customer
  else if role = "local-caller" then some Speaker.agent
  else none

/-- Modelled from the spec: the Normalizer validates a transcribe
payload against the known variants and produces a TranscriptTurn
(spec §4.1); a payload whose role is not a known variant is rejected as
MalformedEvent (none, no side effect).  `seq` is the per-call sequence
number assigned downstream. -/
def normalizeTranscribe (seq : Nat) (p : TranscribePayload) : Option Turn :=
  match mapUtteranceRole p.role with
  | none => none
  | some sp => some ⟨seq, sp, p.content, p.confidence, false⟩

/-- Claim C8: for every payload accepted at POST /webhooks/transcribe,
the Normalizer maps utterance role `remote-caller` to speaker customer
and `local-caller` to speaker agent in the resulting TranscriptTurn. -/
theorem normalizer_role_mapping (seq : Nat) (p : TranscribePayload) :
    (p.role = "remote-caller" →
      normalizeTranscribe seq p =
        some ⟨seq, Speaker.customer, p.content, p.confidence, false⟩) ∧
    (p.role = "local-caller" →
      normalizeTranscribe seq p =
        some ⟨seq, Speaker.agent, p.content, p.confidence, false⟩) := by
  constructor
  · intro h; simp [normalizeTranscribe, mapUtteranceRole, h]
  · intro h; simp [normalizeTranscribe, mapUtteranceRole, h]

/-- Witness for C8: concrete payloads with the two known roles. -/
theorem normalizer_role_mapping_witness :
    (normalizeTranscribe 1 ⟨"remote-caller", "hi", 950, 0, "call_xxx"⟩ =
      some ⟨1, Speaker.customer, "hi", 950, false⟩) ∧
    (normalizeTranscribe 2 ⟨"local-caller", "hello", 990, 5, "call_xxx"⟩ =
      some ⟨2, Speaker.agent, "hello", 990, false⟩) :=
  ⟨(normalizer_role_mapping 1 ⟨"remote-caller", "hi", 950, 0, "call_xxx"⟩).1 rfl,
   (normalizer_role_mapping 2 ⟨"local-caller", "hello", 990, 5, "call_xxx"⟩).2 rfl⟩

/-! ## TranscriptTurn storage with idempotency (spec §4.1, §7)

The webhook persistence path is not among the repository sources; the
idempotent store is modelled from spec.md (`DuplicateEvent`:
idempotency-key hit, acknowledged silently, no-op). -/

/-- Modelled from the spec: the store of TranscriptTurns for one call
together with the set of idempotency keys already processed (spec §4.1
computes the key from `(source, externalEventId)`; the key is kept here
as one string). -/
structure TurnStore where
  seenKeys : List String
  turns : List Turn
deriving DecidableEq, Repr

/-- Modelled from the spec: processing one webhook delivery carrying
idempotency key `key` (spec §7, DuplicateEvent): a key hit is
acknowledged silently as a no-op; a fresh key stores exactly one
TranscriptTurn and records the key.  Returns the new store and whether
a turn was stored. -/
def storeTranscript (st : TurnStore) (key : String) (t : Turn) : TurnStore × Bool :=
  if st.seenKeys.contains key then
    (st, false)
  else
    ({ seenKeys := key :: st.seenKeys, turns := st.turns ++ [t] }, true)

/-- Helper for C4: after a delivery with key `key`, the store has seen
`key`, whether or not it had seen it before. -/
theorem storeTranscript_seen (st : TurnStore) (key : String) (t : Turn) :
    (storeTranscript st key t).1.seenKeys.contains key = true := by
  unfold storeTranscript
  by_cases h : st.seenKeys.contains key = true
  · rw [if_pos h]; exact h
  · rw [if_neg h]; simp

/-- Helper for C4: a delivery whose key was already seen is a silent
no-op. -/
theorem storeTranscript_dup (st : TurnStore) (key : String) (u : Turn)
    (h : st.seenKeys.contains key = true) :
    storeTranscript st key u = (st, false) := by
  unfold storeTranscript; rw [if_pos h]

/-- Claim C4: two webhook deliveries carrying the same externalEventId
produce exactly one stored TranscriptTurn; the duplicate delivery is
acknowledged silently as a no-op with no state change. -/
theorem duplicate_webhook_single_turn (st : TurnStore) (key : String) (t u : Turn) :
    (storeTranscript (storeTranscript st key t).1 key u =
      ((storeTranscript st key t).1, false)) ∧
    (st.seenKeys.contains key = false →
      ((storeTranscript st key t).1.turns = st.turns ++ [t] ∧
        (storeTranscript (storeTranscript st key t).1 key u).1.turns = st.turns ++ [t])) := by
  constructor
  · exact storeTranscript_dup _ key u (storeTranscript_seen st key t)
  · intro h
    have h1 : storeTranscript st key t =
        ({ seenKeys := key :: st.seenKeys, turns := st.turns ++ [t] }, true) := by
      unfold storeTranscript
      rw [if_neg (by rw [h]; exact Bool.false_ne_true)]
    constructor
    · rw [h1]
    · rw [storeTranscript_dup _ key u (storeTranscript_seen st key t), h1]

/-- Witness for C4: delivering the same key twice into an empty store
stores exactly one turn, and the second delivery is a no-op. -/
theorem duplicate_webhook_single_turn_witness :
    (storeTranscript (storeTranscript ⟨[], []⟩ "evt-1" ⟨1, Speaker.customer, "hi", 950, false⟩).1
        "evt-1" ⟨1, Speaker.customer, "hi", 950, false⟩ =
      ((storeTranscript ⟨[], []⟩ "evt-1" ⟨1, Speaker.customer, "hi", 950, false⟩).1, false)) ∧
    ((storeTranscript ⟨[], []⟩ "evt-1" ⟨1, Speaker.customer, "hi", 950, false⟩).1.turns =
      [⟨1, Speaker.customer, "hi", 950, false⟩]) :=
  ⟨(duplicate_webhook_single_turn ⟨[], []⟩ "evt-1" ⟨1, Speaker.customer, "hi", 950, false⟩
      ⟨1, Speaker.customer, "hi", 950, false⟩).1,
   ((duplicate_webhook_single_turn ⟨[], []⟩ "evt-1" ⟨1, Speaker.customer, "hi", 950, false⟩
      ⟨1, Speaker.customer, "hi", 950, false⟩).2 rfl).1⟩

/-! ## Transcript Windower (spec §4.3)

The Windower is not among the repository sources; it is modelled from
spec.md §4.3 together with the buffering strategy described in
signalwire_integration.md §5 (silence detected, buffer size reaches
threshold). -/

/-- Maximum buffered turn count before a window flushes
(spec §4.3 trigger 2, default 5). -/
def maxTurnCount : Nat := 5

/-- Silence-gap flush threshold in milliseconds (spec §4.3 trigger 1,
default 2–3 s; signalwire_integration.md: collect for 2-3 seconds). -/
def silenceThresholdMs : Nat := 2000

/-- Inputs seen by the Windower for one call: a transcript turn
arrived, or a silence gap of the given length since the last turn was
observed. -/
inductive WindowerEvent where
  | turnArrived (t : Turn)
  | silenceGap (ms : Nat)
deriving DecidableEq, Repr

/-- Per-call Windower state: the buffer of turns not yet flushed. -/
structure WindowerState where
  buffer : List Turn
deriving DecidableEq, Repr

/-- Modelled from the spec: one Windower step (spec §4.3).  Flush
triggers, first to fire wins: an explicit final flag on an incoming
turn, the buffer reaching the max turn count, or a silence gap at or
above the threshold.  On flush the buffered turns are emitted as one
closed window (the `WindowClosed{callId, orderedTurns}` payload) and
the buffer is cleared.  Returns the new state and the list of windows
emitted by this step (empty or a single window). -/
def windowerStep (s : WindowerState) (e : WindowerEvent) :
    WindowerState × List (List Turn) :=
  match e with
  | WindowerEvent.turnArrived t =>
      let buf := s.buffer ++ [t]
      if t.isFinal then (⟨[]⟩, [buf])
      else if maxTurnCount ≤ buf.length then (⟨[]⟩, [buf])
      else (⟨buf⟩, [])
  | WindowerEvent.silenceGap ms =>
      if silenceThresholdMs ≤ ms ∧ s.buffer ≠ [] then (⟨[]⟩, [s.buffer])
      else (s, [])

/-- Runs the Windower over a sequence of events, collecting every
window it emits in order. -/
def windowerRun (s : WindowerState) : List WindowerEvent → WindowerState × List (List Turn)
  | [] => (s, [])
  | e :: es =>
      let r := windowerStep s e
      let rest := windowerRun r.1 es
      (rest.1, r.2 ++ rest.2)

/-- The turns carried by a sequence of Windower events, in arrival
order. -/
def arrivedTurns : List WindowerEvent → List Turn
  | [] => []
  | WindowerEvent.turnArrived t :: es => t :: arrivedTurns es
  | WindowerEvent.silenceGap _ :: es => arrivedTurns es

/-- Helper for C2: a turn carrying the explicit final flag flushes the
buffer extended with that turn and clears the state. -/
theorem windowerStep_turn_final (s : WindowerState) (t : Turn) (hf : t.isFinal = true) :
    windowerStep s (WindowerEvent.turnArrived t) = (⟨[]⟩, [s.buffer ++ [t]]) := by
  simp only [windowerStep]
  rw [if_pos hf]

/-- Helper for C2: a turn that makes the buffer reach the max turn
count flushes it (whether or not the turn is final). -/
theorem windowerStep_turn_max (s : WindowerState) (t : Turn)
    (hm : maxTurnCount ≤ s.buffer.length + 1) :
    windowerStep s (WindowerEvent.turnArrived t) = (⟨[]⟩, [s.buffer ++ [t]]) := by
  simp only [windowerStep]
  by_cases hf : t.isFinal = true
  · rw [if_pos hf]
  · rw [if_neg hf,
      if_pos (by simp only [List.length_append, List.length_cons, List.length_nil]; omega)]

/-- Helper for C2: a non-final turn below the max turn count is only
buffered; nothing is emitted. -/
theorem windowerStep_turn_buffered (s : WindowerState) (t : Turn)
    (hf : t.isFinal = false) (hlt : s.buffer.length + 1 < maxTurnCount) :
    windowerStep s (WindowerEvent.turnArrived t) = (⟨s.buffer ++ [t]⟩, []) := by
  simp only [windowerStep]
  rw [if_neg (by rw [hf]; exact Bool.false_ne_true),
    if_neg (by simp only [List.length_append, List.length_cons, List.length_nil]; omega)]

/-- Helper for C2: a silence gap at or above the threshold with a
non-empty buffer flushes the buffer and clears the state. -/
theorem windowerStep_silence_flush (s : WindowerState) (ms : Nat)
    (h1 : silenceThresholdMs ≤ ms) (h2 : s.buffer ≠ []) :
    windowerStep s (WindowerEvent.silenceGap ms) = (⟨[]⟩, [s.buffer]) := by
  simp only [windowerStep]
  rw [if_pos ⟨h1, h2⟩]

/-- Helper for C2: a silence gap that does not qualify (below the
threshold, or nothing buffered) changes nothing. -/
theorem windowerStep_silence_skip (s : WindowerState) (ms : Nat)
    (h : ¬ (silenceThresholdMs ≤ ms ∧ s.buffer ≠ [])) :
    windowerStep s (WindowerEvent.silenceGap ms) = (s, []) := by
  simp only [windowerStep]
  rw [if_neg h]

/-- Helper for C2: conservation.  Over any run, the concatenation of
all flushed windows followed by the remaining buffer is exactly the
initial buffer followed by the arrived turns: no buffered turn is ever
flushed twice or lost. -/
theorem windowerRun_conservation :
    ∀ (es : List WindowerEvent) (s : WindowerState),
      ((windowerRun s es).2.flatten ++ (windowerRun s es).1.buffer) =
        s.buffer ++ arrivedTurns es := by
  intro es
  induction es with
  | nil => intro s; simp [windowerRun, arrivedTurns]
  | cons e es ih =>
      intro s
      have hrun : windowerRun s (e :: es) =
          ((windowerRun (windowerStep s e).1 es).1,
            (windowerStep s e).2 ++ (windowerRun (windowerStep s e).1 es).2) := rfl
      cases e with
      | turnArrived t =>
          by_cases hf : t.isFinal = true
          · rw [hrun, windowerStep_turn_final s t hf]
            simp only [arrivedTurns]
            have h0 := ih ⟨[]⟩
            simp only [List.flatten_append, List.flatten_cons, List.flatten_nil,
              List.append_assoc, List.append_nil] at h0 ⊢
            simp [h0]
          · have hf0 : t.isFinal = false := by
              revert hf; cases t.isFinal <;> simp
            by_cases hm : maxTurnCount ≤ s.buffer.length + 1
            · rw [hrun, windowerStep_turn_max s t hm]
              simp only [arrivedTurns]
              have h0 := ih ⟨[]⟩
              simp only [List.flatten_append, List.flatten_cons, List.flatten_nil,
                List.append_assoc, List.append_nil] at h0 ⊢
              simp [h0]
            · have hlt : s.buffer.length + 1 < maxTurnCount := by omega
              rw [hrun, windowerStep_turn_buffered s t hf0 hlt]
              simp only [arrivedTurns]
              have h0 := ih ⟨s.buffer ++ [t]⟩
              simp only [List.flatten_append, List.flatten_cons, List.flatten_nil,
                List.append_assoc, List.append_nil, List.nil_append] at h0 ⊢
              simp [h0]
      | silenceGap ms =>
          by_cases hg : silenceThresholdMs ≤ ms ∧ s.buffer ≠ []
          · rw [hrun, windowerStep_silence_flush s ms hg.1 hg.2]
            simp only [arrivedTurns]
            have h0 := ih ⟨[]⟩
            simp only [List.flatten_append, List.flatten_cons, List.flatten_nil,
              List.append_assoc, List.append_nil] at h0 ⊢
            simp [h0]
          · rw [hrun, windowerStep_silence_skip s ms hg]
            simp only [arrivedTurns]
            have h0 := ih s
            simp only [List.flatten_append, List.flatten_cons, List.flatten_nil,
              List.append_assoc, List.append_nil, List.nil_append] at h0 ⊢
            simp [h0]

/-- Claim C2: a per-call transcript buffer flushes exactly once per
qualifying trigger (silence gap at or above the threshold, buffer
reaching the max turn count of 5, or an explicit final flag, whichever
fires first), never zero times and never twice for the same buffered
turns; each flush emits one WindowClosed event containing the ordered
turns and clears the buffer.  The last conjunct (conservation over any
run) rules out a turn being flushed twice or dropped. -/
theorem windower_flush_exactly_once (s : WindowerState) (e : WindowerEvent)
    (t : Turn) (ms : Nat) (es : List WindowerEvent) :
    ((windowerStep s e).2.length ≤ 1) ∧
    (silenceThresholdMs ≤ ms → s.buffer ≠ [] →
      windowerStep s (WindowerEvent.silenceGap ms) = (⟨[]⟩, [s.buffer])) ∧
    (ms < silenceThresholdMs →
      windowerStep s (WindowerEvent.silenceGap ms) = (s, [])) ∧
    (maxTurnCount ≤ s.buffer.length + 1 →
      windowerStep s (WindowerEvent.turnArrived t) = (⟨[]⟩, [s.buffer ++ [t]])) ∧
    (t.isFinal = true →
      windowerStep s (WindowerEvent.turnArrived t) = (⟨[]⟩, [s.buffer ++ [t]])) ∧
    (t.isFinal = false → s.buffer.length + 1 < maxTurnCount →
      windowerStep s (WindowerEvent.turnArrived t) = (⟨s.buffer ++ [t]⟩, [])) ∧
    ((windowerRun ⟨[]⟩ es).2.flatten ++ (windowerRun ⟨[]⟩ es).1.buffer = arrivedTurns es) := by
  refine ⟨?_, ?_, ?_, ?_, ?_, ?_, ?_⟩
  · cases e with
    | turnArrived u =>
        by_cases hf : u.isFinal = true
        · rw [windowerStep_turn_final s u hf]; simp
        · have hf0 : u.isFinal = false := by
            revert hf; cases u.isFinal <;> simp
          by_cases hm : maxTurnCount ≤ s.buffer.length + 1
          · rw [windowerStep_turn_max s u hm]; simp
          · rw [windowerStep_turn_buffered s u hf0 (by omega)]; simp
    | silenceGap g =>
        by_cases hg : silenceThresholdMs ≤ g ∧ s.buffer ≠ []
        · rw [windowerStep_silence_flush s g hg.1 hg.2]; simp
        · rw [windowerStep_silence_skip s g hg]; simp
  · intro h1 h2
    exact windowerStep_silence_flush s ms h1 h2
  · intro h
    exact windowerStep_silence_skip s ms (fun hc => by omega)
  · intro h
    exact windowerStep_turn_max s t h
  · intro hf
    exact windowerStep_turn_final s t hf
  · intro hf hlt
    exact windowerStep_turn_buffered s t hf hlt
  · have h0 := windowerRun_conservation es ⟨[]⟩
    simpa using h0

/-- Witness for C2 at concrete inputs: a qualifying silence gap flushes
the two buffered turns exactly once and clears the buffer; a short gap
does not flush; a final turn flushes; a fifth turn flushes; a non-final
second turn only buffers. -/
theorem windower_flush_exactly_once_witness :
    (windowerStep ⟨[⟨1, Speaker.customer, "hi", 950, false⟩,
        ⟨2, Speaker.agent, "hello", 990, false⟩]⟩ (WindowerEvent.silenceGap 3000) =
      (⟨[]⟩, [[⟨1, Speaker.customer, "hi", 950, false⟩,
        ⟨2, Speaker.agent, "hello", 990, false⟩]])) ∧
    (windowerStep ⟨[⟨1, Speaker.customer, "hi", 950, false⟩]⟩ (WindowerEvent.silenceGap 100) =
      (⟨[⟨1, Speaker.customer, "hi", 950, false⟩]⟩, [])) ∧
    (windowerStep ⟨[⟨1, Speaker.customer, "hi", 950, false⟩]⟩
        (WindowerEvent.turnArrived ⟨2, Speaker.agent, "bye", 990, true⟩) =
      (⟨[]⟩, [[⟨1, Speaker.customer, "hi", 950, false⟩, ⟨2, Speaker.agent, "bye", 990, true⟩]])) ∧
    (windowerStep ⟨[⟨1, Speaker.customer, "a", 9, false⟩, ⟨2, Speaker.agent, "b", 9, false⟩,
        ⟨3, Speaker.customer, "c", 9, false⟩, ⟨4, Speaker.agent, "d", 9, false⟩]⟩
        (WindowerEvent.turnArrived ⟨5, Speaker.customer, "e", 9, false⟩) =
      (⟨[]⟩, [[⟨1, Speaker.customer, "a", 9, false⟩, ⟨2, Speaker.agent, "b", 9, false⟩,
        ⟨3, Speaker.customer, "c", 9, false⟩, ⟨4, Speaker.agent, "d", 9, false⟩,
        ⟨5, Speaker.customer, "e", 9, false⟩]])) ∧
    (windowerStep ⟨[⟨1, Speaker.customer, "hi", 950, false⟩]⟩
        (WindowerEvent.turnArrived ⟨2, Speaker.agent, "hello", 990, false⟩) =
      (⟨[⟨1, Speaker.customer, "hi", 950, false⟩, ⟨2, Speaker.agent, "hello", 990, false⟩]⟩, [])) :=
  ⟨(windower_flush_exactly_once ⟨[⟨1, Speaker.customer, "hi", 950, false⟩,
        ⟨2, Speaker.agent, "hello", 990, false⟩]⟩ (WindowerEvent.silenceGap 3000)
        ⟨0, Speaker.agent, "", 0, false⟩ 3000 []).2.1 (by decide) (by decide),
   (windower_flush_exactly_once ⟨[⟨1, Speaker.customer, "hi", 950, false⟩]⟩
        (WindowerEvent.silenceGap 100) ⟨0, Speaker.agent, "", 0, false⟩ 100 []).2.2.1 (by decide),
   (windower_flush_exactly_once ⟨[⟨1, Speaker.customer, "hi", 950, false⟩]⟩
        (WindowerEvent.turnArrived ⟨2, Speaker.agent, "bye", 990, true⟩)
        ⟨2, Speaker.agent, "bye", 990, true⟩ 0 []).2.2.2.2.1 rfl,
   (windower_flush_exactly_once ⟨[⟨1, Speaker.customer, "a", 9, false⟩, ⟨2, Speaker.agent, "b", 9, false⟩,
        ⟨3, Speaker.customer, "c", 9, false⟩, ⟨4, Speaker.agent, "d", 9, false⟩]⟩
        (WindowerEvent.silenceGap 0)
        ⟨5, Speaker.customer, "e", 9, false⟩ 0 []).2.2.2.1 (by decide),
   (windower_flush_exactly_once ⟨[⟨1, Speaker.customer, "hi", 950, false⟩]⟩
        (WindowerEvent.silenceGap 0)
        ⟨2, Speaker.agent, "hello", 990, false⟩ 0 []).2.2.2.2.2.1 rfl (by decide)⟩

/-! ## Realtime delivery ordering (spec §4.3, §8)

The server-side path that orders TranscriptTurns for realtime
subscribers is not among the repository sources; the ordered per-call
buffer is modelled from spec.md: ordered by sequenceNumber, buffering
out-of-order arrivals, re-sorted before flush, never dropped. -/

/-- Modelled from the spec: insertion of one arriving TranscriptTurn
into the per-call ordered buffer at its sequenceNumber position
(spec §4.3). -/
def insertBySeq (t : Turn) : List Turn → List Turn
  | [] => [t]
  | u :: us => if t.seq ≤ u.seq then t :: u :: us else u :: insertBySeq t us

/-- Modelled from the spec: the ordered per-call buffer built from the
network arrivals, in arrival order; each arrival is inserted at its
sequenceNumber position, so the buffer that is flushed to subscribers
is re-sorted and complete. -/
def deliverOrdered (arrivals : List Turn) : List Turn :=
  arrivals.foldr insertBySeq []

/-- Helper for C3: inserting a turn yields a permutation of consing
it. -/
theorem insertBySeq_perm (t : Turn) (l : List Turn) :
    List.Perm (insertBySeq t l) (t :: l) := by
  induction l with
  | nil => simp [insertBySeq]
  | cons u us ih =>
      simp only [insertBySeq]
      by_cases h : t.seq ≤ u.seq
      · rw [if_pos h]
      · rw [if_neg h]
        exact List.Perm.trans (List.Perm.cons u ih) (List.Perm.swap t u us)

/-- Helper for C3: insertion preserves sortedness by sequenceNumber. -/
theorem insertBySeq_sorted (t : Turn) (l : List Turn)
    (hl : List.Pairwise (fun a b => a.seq ≤ b.seq) l) :
    List.Pairwise (fun a b => a.seq ≤ b.seq) (insertBySeq t l) := by
  induction l with
  | nil => simp [insertBySeq]
  | cons u us ih =>
      simp only [insertBySeq]
      rcases List.pairwise_cons.mp hl with ⟨hu, hus⟩
      by_cases h : t.seq ≤ u.seq
      · rw [if_pos h]
        refine List.pairwise_cons.mpr ⟨?_, hl⟩
        intro b hb
        rcases List.mem_cons.mp hb with hb | hb
        · exact hb ▸ h
        · exact Nat.le_trans h (hu b hb)
      · rw [if_neg h]
        refine List.pairwise_cons.mpr ⟨?_, ih hus⟩
        intro b hb
        rcases List.mem_cons.mp ((insertBySeq_perm t us).mem_iff.mp hb) with hb | hb
        · exact hb ▸ Nat.le_of_not_le h
        · exact hu b hb

/-- Claim C3: for every call and every network arrival order of its
transcript events, TranscriptTurns are delivered to realtime
subscribers in ascending sequenceNumber order: out-of-order arrivals
are buffered and re-sorted before flush (the delivered buffer is
pairwise ascending in sequenceNumber) and are never dropped (the
delivered buffer is a permutation of the arrivals). -/
theorem transcript_delivery_ordered (arrivals : List Turn) :
    List.Pairwise (fun a b => a.seq ≤ b.seq) (deliverOrdered arrivals) ∧
    List.Perm (deliverOrdered arrivals) arrivals := by
  induction arrivals with
  | nil => exact ⟨List.Pairwise.nil, List.Perm.refl []⟩
  | cons t ts ih =>
      constructor
      · exact insertBySeq_sorted t (deliverOrdered ts) ih.1
      · exact List.Perm.trans (insertBySeq_perm t (deliverOrdered ts)) (List.Perm.cons t ih.2)

/-! ## Call Lifecycle Reconciler (spec §3, §4.2)

The Reconciler is not among the repository sources (the calls table of
database_schema.sql and the frontend callers are); it is modelled from
spec.md. -/

/-- CallSession status (spec §3):
Pending, Ringing, Active, Ending, Ended, Failed. -/
inductive CallStatus where
  | pending
  | ringing
  | active
  | ending
  | ended
  | failed
deriving DecidableEq, Repr

/-- Ended and Failed are the terminal statuses (spec §4.2). -/
def CallStatus.isTerminal : CallStatus → Bool
  | CallStatus.ended => true
  | CallStatus.failed => true
  | _ => false

/-- Modelled from the spec: the Reconciler transition table (spec §4.2):
Pending → Ringing → Active → Ending → Ended is the normal path and
Pending/Ringing/Active → Failed the error path; everything else is an
illegal transition. -/
def transitionAllowed : CallStatus → CallStatus → Bool
  | CallStatus.pending, CallStatus.ringing => true
  | CallStatus.ringing, CallStatus.active => true
  | CallStatus.active, CallStatus.ending => true
  | CallStatus.ending, CallStatus.ended => true
  | CallStatus.pending, CallStatus.failed => true
  | CallStatus.ringing, CallStatus.failed => true
  | CallStatus.active, CallStatus.failed => true
  | _, _ => false

/-- Keeps an already-present identifier or timestamp and fills it from
the event only when missing (first-writer-wins, spec §4.2). -/
def fillMissing : Option Nat → Option Nat → Option Nat
  | some x, _ => some x
  | none, y => y

/-- A CallSession (spec §3): internal fields reduced to the ones the
claims are about — `externalCallId` (telephony-assigned), `webrtcCallId`
(browser-assigned), `status`, `endTime`. -/
structure CallSession where
  extId : Option Nat
  webId : Option Nat
  status : CallStatus
  endTime : Option Nat
deriving DecidableEq, Repr

/-- Modelled from the spec: the Reconciler applies a state-change event
carrying a target status and an optional end time (spec §4.2).  If the
session is terminal (Ended/Failed) the event only backfills the missing
endTime field and triggers no status broadcast; an accepted transition
updates the status and emits a StatusChanged broadcast; an illegal
transition is ignored.  Returns the session and whether a status
broadcast was emitted. -/
def applyStateChange (s : CallSession) (target : CallStatus) (evEnd : Option Nat) :
    CallSession × Bool :=
  if s.status.isTerminal then
    ({ s with endTime := fillMissing s.endTime evEnd }, false)
  else if transitionAllowed s.status target then
    ({ s with status := target, endTime := fillMissing s.endTime evEnd }, true)
  else
    (s, false)

/-- A document ranked by the vector-search collaborator (spec §3,
AssistanceSuggestion): id, title, similarity score as integer
per-mille. -/
structure RankedDoc where
  docId : String
  title : String
  similarity : Nat
deriving DecidableEq, Repr

/-- An AssistanceSuggestion (spec §3): ranked documents, summary,
topics. -/
structure Suggestion where
  documents : List RankedDoc
  summary : String
  topics : List String
deriving DecidableEq, Repr

/-- Modelled from the spec: the Dispatcher's publication gate
(spec §4.4, §5): if the call has reached Ended/Failed by the time a
dispatch completes, the computed result is not broadcast to the call's
channel. -/
def publishIfLive (s : CallSession) (sugg : Suggestion) : Option Suggestion :=
  if s.status.isTerminal then none else some sugg

/-- Claim C5: once a CallSession reaches the terminal status Ended or
Failed, no subsequent event or completing dispatch job causes any new
broadcast for that call: a later state-change event only backfills the
missing endTime (every other field unchanged, and an already-present
endTime is kept) and triggers no status broadcast, and a suggestion
whose dispatch completes after the terminal status is computed but
never published to that call's channel. -/
theorem terminal_status_no_broadcast (s : CallSession) (target : CallStatus)
    (evEnd : Option Nat) (sugg : Suggestion) (h : s.status.isTerminal = true) :
    ((applyStateChange s target evEnd).2 = false) ∧
    ((applyStateChange s target evEnd).1 =
      { s with endTime := fillMissing s.endTime evEnd }) ∧
    (s.endTime.isSome → (applyStateChange s target evEnd).1 = s) ∧
    (publishIfLive s sugg = none) := by
  have hstep : applyStateChange s target evEnd =
      ({ s with endTime := fillMissing s.endTime evEnd }, false) := by
    unfold applyStateChange
    rw [if_pos h]
  refine ⟨by rw [hstep], by rw [hstep], ?_, by unfold publishIfLive; rw [if_pos h]⟩
  intro he
  rw [hstep]
  cases hET : s.endTime with
  | none => rw [hET] at he; exact absurd he (by simp)
  | some x =>
      simp only [fillMissing, hET]
      rw [← hET]

/-- Witness for C5: an ended session with its endTime already set is
left untouched by a later answered event, emits no broadcast, and a
completing dispatch is not published. -/
theorem terminal_status_no_broadcast_witness :
    ((applyStateChange ⟨some 5, none, CallStatus.ended, some 99⟩ CallStatus.active none).2 = false) ∧
    ((applyStateChange ⟨some 5, none, CallStatus.ended, some 99⟩ CallStatus.active none).1 =
      ⟨some 5, none, CallStatus.ended, some 99⟩) ∧
    (publishIfLive ⟨some 5, none, CallStatus.ended, some 99⟩ ⟨[], "s", []⟩ = none) :=
  ⟨(terminal_status_no_broadcast ⟨some 5, none, CallStatus.ended, some 99⟩
      CallStatus.active none ⟨[], "s", []⟩ rfl).1,
   (terminal_status_no_broadcast ⟨some 5, none, CallStatus.ended, some 99⟩
      CallStatus.active none ⟨[], "s", []⟩ rfl).2.2.1 rfl,
   (terminal_status_no_broadcast ⟨some 5, none, CallStatus.ended, some 99⟩
      CallStatus.active none ⟨[], "s", []⟩ rfl).2.2.2⟩

/-! ## Assistance Dispatcher failure policy (spec §4.4, §7) -/

/-- Outcome of one bounded collaborator call (spec §4.4): a value, a
timeout (default bound 5 s), or an error. -/
inductive CollabResult (α : Type) where
  | ok (value : α)
  | timeout
  | failed
deriving DecidableEq, Repr

/-- Similarity floor below which vector-search results are discarded
(spec §4.4; the pgvector query of the vector design document uses 0.7,
kept as integer per-mille). -/
def similarityFloor : Nat := 700

/-- Modelled from the spec: one Dispatcher job for a closed window
(spec §4.4).  Builds the suggestion from the vector-search collaborator
outcome (discarding documents below the similarity floor) and the
summarizer outcome.  A timeout or error of either collaborator
degrades silently (spec §7, CollaboratorTimeout/CollaboratorError):
the suggestion for that window is suppressed, the call session is
untouched, and the failure is never escalated as a call-affecting
error.  Returns (session after the job, suggestion if any, whether a
call-affecting error was escalated). -/
def runDispatchJob (s : CallSession) (vecResult : CollabResult (List RankedDoc))
    (sumResult : CollabResult (String × List String)) :
    CallSession × Option Suggestion × Bool :=
  match vecResult with
  | CollabResult.timeout => (s, none, false)
  | CollabResult.failed => (s, none, false)
  | CollabResult.ok docs =>
      let kept := docs.filter (fun d => similarityFloor ≤ d.similarity)
      match sumResult with
      | CollabResult.ok p => (s, some ⟨kept, p.1, p.2⟩, false)
      | CollabResult.timeout => (s, none, false)
      | CollabResult.failed => (s, none, false)

/-- Claim C7: for every dispatch job, a collaborator timeout or error
causes the suggestion for that window to be suppressed and nothing
else: the call session is unaffected by every dispatch outcome, no
dispatch outcome is ever escalated as a call-affecting error, and a
timeout or error of either collaborator (vector search or summarizer)
yields no suggestion. -/
theorem dispatch_failure_degrades_silently (s : CallSession)
    (vecResult : CollabResult (List RankedDoc))
    (sumResult : CollabResult (String × List String)) :
    ((runDispatchJob s vecResult sumResult).1 = s) ∧
    ((runDispatchJob s vecResult sumResult).2.2 = false) ∧
    ((vecResult = CollabResult.timeout ∨ vecResult = CollabResult.failed) ∨
        (sumResult = CollabResult.timeout ∨ sumResult = CollabResult.failed) →
      (runDispatchJob s vecResult sumResult).2.1 = none) := by
  cases vecResult with
  | timeout => exact ⟨rfl, rfl, fun _ => rfl⟩
  | failed => exact ⟨rfl, rfl, fun _ => rfl⟩
  | ok docs =>
      cases sumResult with
      | ok p =>
          refine ⟨rfl, rfl, fun hc => ?_⟩
          rcases hc with (hc | hc) | (hc | hc) <;> exact absurd hc (by simp)
      | timeout => exact ⟨rfl, rfl, fun _ => rfl⟩
      | failed => exact ⟨rfl, rfl, fun _ => rfl⟩

/-- Witness for C7: a vector-search timeout, and separately a
summarizer error after a successful vector search, each leave the
session untouched, suppress the suggestion and escalate nothing. -/
theorem dispatch_failure_degrades_silently_witness :
    ((runDispatchJob ⟨some 5, some 6, CallStatus.active, none⟩ CollabResult.timeout
        (CollabResult.ok ("sum", ["t"]))).1 = ⟨some 5, some 6, CallStatus.active, none⟩) ∧
    ((runDispatchJob ⟨some 5, some 6, CallStatus.active, none⟩ CollabResult.timeout
        (CollabResult.ok ("sum", ["t"]))).2.2 = false) ∧
    ((runDispatchJob ⟨some 5, some 6, CallStatus.active, none⟩ CollabResult.timeout
        (CollabResult.ok ("sum", ["t"]))).2.1 = none) ∧
    ((runDispatchJob ⟨some 5, some 6, CallStatus.active, none⟩
        (CollabResult.ok [⟨"d1", "Manual", 900⟩]) CollabResult.failed).2.1 = none) :=
  ⟨(dispatch_failure_degrades_silently ⟨some 5, some 6, CallStatus.active, none⟩
      CollabResult.timeout (CollabResult.ok ("sum", ["t"]))).1,
   (dispatch_failure_degrades_silently ⟨some 5, some 6, CallStatus.active, none⟩
      CollabResult.timeout (CollabResult.ok ("sum", ["t"]))).2.1,
   (dispatch_failure_degrades_silently ⟨some 5, some 6, CallStatus.active, none⟩
      CollabResult.timeout (CollabResult.ok ("sum", ["t"]))).2.2 (Or.inl (Or.inl rfl)),
   (dispatch_failure_degrades_silently ⟨some 5, some 6, CallStatus.active, none⟩
      (CollabResult.ok [⟨"d1", "Manual", 900⟩]) CollabResult.failed).2.2
      (Or.inr (Or.inr rfl))⟩

/-! ## Broadcast Hub per-subscriber publish (spec §4.5) -/

/-- Capacity of the small bounded per-subscriber outgoing queue
(spec §4.5). -/
def queueCapacity : Nat := 8

/-- A message pushed to a realtime subscriber: either a
status-transition message (`call:status`) or a low-value
duplicate-suppressible one (e.g. a supplanted `ai:suggestion`). -/
structure HubMessage where
  isStatusTransition : Bool
  payload : String
deriving DecidableEq, Repr

/-- Outcome of publishing one message to one subscriber. -/
inductive PublishOutcome where
  | enqueued
  | droppedLowValue
  | evictedSubscriber
deriving DecidableEq, Repr

/-- A live subscriber connection: its bounded outgoing queue and
whether it is still considered alive. -/
structure Subscriber where
  queue : List HubMessage
  alive : Bool
deriving DecidableEq, Repr

/-- Modelled from the spec: non-blocking publish of one message to one
subscriber (spec §4.5).  While the bounded queue has room the message
is enqueued; on a full queue a low-value duplicate-suppressible
message is dropped for that subscriber, but a status-transition message
is never dropped: it triggers eviction of the subscriber instead
(treated as dead). -/
def publishToSubscriber (sub : Subscriber) (m : HubMessage) :
    Subscriber × PublishOutcome :=
  if sub.queue.length < queueCapacity then
    ({ sub with queue := sub.queue ++ [m] }, PublishOutcome.enqueued)
  else if m.isStatusTransition then
    ({ sub with alive := false }, PublishOutcome.evictedSubscriber)
  else
    (sub, PublishOutcome.droppedLowValue)

/-- Claim C6: a status-transition message is never dropped for any
subscriber: publishing it either enqueues it (queue had room) or
evicts the subscriber as dead (queue full), never the silent drop
outcome; and only a low-value message on a full queue is ever
dropped. -/
theorem hub_status_never_dropped (sub : Subscriber) (m : HubMessage) :
    (m.isStatusTransition = true →
      (sub.queue.length < queueCapacity →
        publishToSubscriber sub m =
          ({ sub with queue := sub.queue ++ [m] }, PublishOutcome.enqueued)) ∧
      (queueCapacity ≤ sub.queue.length →
        publishToSubscriber sub m =
          ({ sub with alive := false }, PublishOutcome.evictedSubscriber)) ∧
      (publishToSubscriber sub m).2 ≠ PublishOutcome.droppedLowValue) ∧
    ((publishToSubscriber sub m).2 = PublishOutcome.droppedLowValue →
      m.isStatusTransition = false ∧ queueCapacity ≤ sub.queue.length) := by
  constructor
  · intro hst
    by_cases hq : sub.queue.length < queueCapacity
    · have hstep : publishToSubscriber sub m =
          ({ sub with queue := sub.queue ++ [m] }, PublishOutcome.enqueued) := by
        unfold publishToSubscriber
        rw [if_pos hq]
      exact ⟨fun _ => hstep, fun hge => absurd hq (by omega),
        by rw [hstep]; exact fun hc => PublishOutcome.noConfusion hc⟩
    · have hstep : publishToSubscriber sub m =
          ({ sub with alive := false }, PublishOutcome.evictedSubscriber) := by
        unfold publishToSubscriber
        rw [if_neg hq, if_pos hst]
      exact ⟨fun hlt => absurd hlt hq, fun _ => hstep,
        by rw [hstep]; exact fun hc => PublishOutcome.noConfusion hc⟩
  · intro hdrop
    by_cases hq : sub.queue.length < queueCapacity
    · exfalso
      have hstep : publishToSubscriber sub m =
          ({ sub with queue := sub.queue ++ [m] }, PublishOutcome.enqueued) := by
        unfold publishToSubscriber
        rw [if_pos hq]
      rw [hstep] at hdrop
      exact PublishOutcome.noConfusion hdrop
    · by_cases hst : m.isStatusTransition = true
      · exfalso
        have hstep : publishToSubscriber sub m =
            ({ sub with alive := false }, PublishOutcome.evictedSubscriber) := by
          unfold publishToSubscriber
          rw [if_neg hq, if_pos hst]
        rw [hstep] at hdrop
        exact PublishOutcome.noConfusion hdrop
      · have hst0 : m.isStatusTransition = false := by
          revert hst; cases m.isStatusTransition <;> simp
        exact ⟨hst0, by omega⟩

/-- Witness for C6: a status message on a full queue evicts the
subscriber instead of being dropped, and a status message on a queue
with room is enqueued. -/
theorem hub_status_never_dropped_witness :
    (publishToSubscriber ⟨List.replicate 8 ⟨false, "sugg"⟩, true⟩ ⟨true, "call-ended"⟩ =
      (⟨List.replicate 8 ⟨false, "sugg"⟩, false⟩, PublishOutcome.evictedSubscriber)) ∧
    (publishToSubscriber ⟨[], true⟩ ⟨true, "call-ended"⟩ =
      (⟨[⟨true, "call-ended"⟩], true⟩, PublishOutcome.enqueued)) :=
  ⟨((hub_status_never_dropped ⟨List.replicate 8 ⟨false, "sugg"⟩, true⟩
      ⟨true, "call-ended"⟩).1 rfl).2.1 (by decide),
   ((hub_status_never_dropped ⟨[], true⟩ ⟨true, "call-ended"⟩).1 rfl).1 (by decide)⟩

/-! ## Reconciler session identity (spec §3, §4.2, §9)

One real-world call carries a telephony-assigned externalCallId and a
browser-assigned webrtcCallId.  Inbound events (telephony webhooks,
WebRTC client intents) each carry one of the two identifiers, or both
when an event correlates them (useWebPhoneSync.ts sends
`webrtc_call_id` together with the backend call creation request; the
call-state webhook carries the SignalWire `call_id`). -/

/-- An inbound event reduced to the identifiers it carries: the
telephony-assigned externalCallId and/or the browser-assigned
webrtcCallId. -/
structure InboundEvent where
  extId : Option Nat
  webId : Option Nat
deriving DecidableEq, Repr

/-- Two optional identifiers match only when both are present and
equal. -/
def idMatches : Option Nat → Option Nat → Bool
  | some a, some b => a == b
  | _, _ => false

/-- Modelled from the spec: the Reconciler's session lookup (spec
§4.2): an event is routed to a session when either its external id or
its webrtc id matches the one indexed for that session (primary key
plus secondary index over the other id type). -/
def eventMatches (e : InboundEvent) (s : CallSession) : Bool :=
  idMatches e.extId s.extId || idMatches e.webId s.webId

/-- Modelled from the spec: merging a correlating event's identifiers
into an existing session, first-writer-wins (spec §4.2): identifiers
already present are kept, missing ones are filled from the event. -/
def mergeInto (e : InboundEvent) (s : CallSession) : CallSession :=
  { s with extId := fillMissing s.extId e.extId,
           webId := fillMissing s.webId e.webId }

/-- Modelled from the spec: the first event referencing a call creates
the CallSession keyed by whichever identifier it carries (spec §3
lifecycle, §4.2; a provisional session starts Pending). -/
def newSession (e : InboundEvent) : CallSession :=
  ⟨e.extId, e.webId, CallStatus.pending, none⟩

/-- Modelled from the spec: the Reconciler routes one inbound event
through the session registry: the first session matching one of the
event's identifiers absorbs the event (merging its identifiers);
otherwise a new session is created (spec §4.2, §7
UnknownCallReference). -/
def ingestEvent : List CallSession → InboundEvent → List CallSession
  | [], e => [newSession e]
  | s :: rest, e =>
      if eventMatches e s then mergeInto e s :: rest
      else s :: ingestEvent rest e

/-- Routes a sequence of inbound events through the registry in
order. -/
def ingestAll : List CallSession → List InboundEvent → List CallSession
  | reg, [] => reg
  | reg, e :: es => ingestAll (ingestEvent reg e) es

/-- The single session obtained by merging a sequence of correlated
events into an initial session, in order. -/
def sessionAfter (s : CallSession) : List InboundEvent → CallSession
  | [] => s
  | e :: es => sessionAfter (mergeInto e s) es

/-- Decides whether every event of the sequence, processed in order,
carries at least one identifier already merged into the session — i.e.
whether a correlating event supplies the other id type before any
event carrying only that id arrives. -/
def linkedRun (s : CallSession) : List InboundEvent → Bool
  | [] => true
  | e :: es => eventMatches e s && linkedRun (mergeInto e s) es

/-- Counterexample to C1 as stated: a real-world call with
externalCallId 0 and webrtcCallId 1 whose two inbound events each
carry only their own identifier and are never correlated.  The first
event creates a session keyed by the external id; the second carries
only the webrtc id, matches nothing, and creates a second session —
the spec itself flags this uncorrelated case as legitimately producing
two sessions (spec §4.2, §9). -/
theorem reconciler_two_sessions_uncorrelated :
    (ingestAll [] [⟨some 0, none⟩, ⟨none, some 1⟩]).length = 2 := by decide

/-- Claim C1 (amended): for every sequence of inbound events
referencing the same real-world call in which every event after the
first carries at least one identifier already merged into the session
(in particular, a correlating event supplies both identifiers before
any event carrying only the other identifier arrives), exactly one
CallSession exists: the first event creates it keyed by whichever
identifier it carries, and each later-arriving identifier is merged
into that same session, never creating a second session. -/
theorem reconciler_single_session_when_correlated :
    ∀ (es : List InboundEvent) (e0 : InboundEvent),
      linkedRun (newSession e0) es = true →
      ingestAll [] (e0 :: es) = [sessionAfter (newSession e0) es] := by
  have key : ∀ (es : List InboundEvent) (s : CallSession),
      linkedRun s es = true → ingestAll [s] es = [sessionAfter s es] := by
    intro es
    induction es with
    | nil => intro s _; rfl
    | cons e es ih =>
        intro s h
        have hm : eventMatches e s = true ∧ linkedRun (mergeInto e s) es = true := by
          simpa [linkedRun, Bool.and_eq_true] using h
        have hstep : ingestEvent [s] e = [mergeInto e s] := by
          unfold ingestEvent
          rw [if_pos hm.1]
        show ingestAll (ingestEvent [s] e) es = [sessionAfter (mergeInto e s) es]
        rw [hstep]
        exact ih (mergeInto e s) hm.2
  intro es e0 h
  show ingestAll (ingestEvent [] e0) es = [sessionAfter (newSession e0) es]
  exact key es (newSession e0) h

/-- Witness for the amended C1: the telephony event carrying external
id 0 creates the session; a correlating event supplies both ids; the
webrtc-only event then merges into the same single session. -/
theorem reconciler_single_session_when_correlated_witness :
    ingestAll [] [(⟨some 0, none⟩ : InboundEvent), ⟨some 0, some 1⟩, ⟨none, some 1⟩] =
      [⟨some 0, some 1, CallStatus.pending, none⟩] := by
  rw [reconciler_single_session_when_correlated
    [⟨some 0, some 1⟩, ⟨none, some 1⟩] ⟨some 0, none⟩ (by decide)]
  rfl

end LiveCall
